import Mathlib

/-!
Verification of the multi-subject report comment generator.

The source is a single Python file concatenating several near-duplicate app
variants (referred to below as variant 1 .. variant 6 in textual order), plus
statement-bank data modules.  Each definition below is a shallow embedding of
one function of the source; text is modelled as `List Char` (one entry per
Unicode code point, matching Python string indexing/length), machine integers
as `Int`/`Nat`, Python dictionaries as association lists in insertion order,
`random.choice` as an explicit index parameter, and Python exceptions as
`Except`.  Character classification functions are embedded at ASCII scope,
which covers all bank data and the inputs used in the theorems.
-/

set_option maxRecDepth 20000

namespace Report

/-- Text is a list of characters (code points), matching Python indexing. -/
abbrev Str := List Char

/-- Characters Python `str.strip()` removes, at ASCII scope. -/
def pyIsSpace (c : Char) : Bool :=
  c = ' ' || c = '\t' || c = '\n' || c = '\r' || c = '\x0b' || c = '\x0c'

/-- Python `str.isalnum()` at ASCII scope: letters and digits. -/
def pyIsAlnum (c : Char) : Bool := c.isAlpha || c.isDigit

/-- Word characters of the regex word boundary `\b`: `[A-Za-z0-9_]`. -/
def isWordChar (c : Char) : Bool := c.isAlpha || c.isDigit || c = '_'

/-- Python `str.strip()` (whitespace from both ends). -/
def pyStrip (l : Str) : Str := List.rdropWhile pyIsSpace (l.dropWhile pyIsSpace)

/-- Python `str.rstrip(bad)`: remove a trailing run of characters from `bad`. -/
def rstripSet (bad : Str) (l : Str) : Str := List.rdropWhile (fun c => bad.contains c) l

/-- Python `str.title()` at ASCII scope: a letter is uppercased after a
non-letter and lowercased after a letter.  The boolean tracks whether the
previous character was a letter. -/
def pyTitleGo : Bool → Str → Str
  | _, [] => []
  | prevAlpha, c :: cs =>
    if c.isAlpha then
      (if prevAlpha then c.toLower else c.toUpper) :: pyTitleGo true cs
    else
      c :: pyTitleGo false cs

/-- Python `str.title()`. -/
def pyTitle (l : Str) : Str := pyTitleGo false l

/-- Characters kept by `sanitize_input`: alphanumerics plus space, period,
apostrophe (code 39) and hyphen, from the source's set literal. -/
def sanitizeKeep (c : Char) : Bool :=
  pyIsAlnum c || c = ' ' || c = '.' || c = Char.ofNat 39 || c = '-'

/-- Embedding of `sanitize_input(text, max_length=100)`: filter the allowed
characters, cut to 100, strip, title-case.  (All call sites use the default
`max_length`; the source's early return on empty input is the same as running
the pipeline on the empty string.) -/
def sanitize_input (text : Str) : Str :=
  pyTitle (pyStrip ((text.filter sanitizeKeep).take 100))

/-- Python `str.lower()` at ASCII scope. -/
def pyLower (l : Str) : Str := l.map Char.toLower

/-- Python `str.capitalize()`: first character uppercased, rest lowercased. -/
def pyCapitalize : Str → Str
  | [] => []
  | c :: cs => c.toUpper :: cs.map Char.toLower

/-- Embedding of `get_pronouns(gender)` (identical in every variant). -/
def get_pronouns (gender : Str) : Str × Str :=
  let g := pyLower gender
  if g = ("male").data then (("he").data, ("his").data)
  else if g = ("female").data then (("she").data, ("her").data)
  else (("they").data, ("their").data)

/-- Embedding of `lowercase_first(text)`. -/
def lowercase_first : Str → Str
  | [] => []
  | c :: cs => c.toLower :: cs

/-- Python `str.rfind(c)`: index of the last occurrence, if any. -/
def lastIdxOf : Str → Char → Option Nat
  | [], _ => none
  | a :: as, c =>
    match lastIdxOf as c with
    | some i => some (i + 1)
    | none => if a = c then some 0 else none

/-- The target character budget of the app. -/
def TARGET_CHARS : Nat := 499

/-- Embedding of `truncate_comment(comment, target)` (identical in every
variant): identity under the budget, else cut to the budget, right-strip
`" ,;."`, and if a period remains cut just after the last one. -/
def truncate_comment (comment : Str) (target : Nat) : Str :=
  if comment.length ≤ target then comment
  else
    let truncated := rstripSet ((" ,;.").data) (comment.take target)
    match lastIdxOf truncated '.' with
    | some i => truncated.take (i + 1)
    | none => truncated

/-- Does the text end with a period (`text.endswith('.')`)? -/
def endsDot (l : Str) : Bool := l.getLast? = some '.'

/-- The recurring `if not s.endswith('.'): s += '.'` step. -/
def ensureDot (l : Str) : Str := if endsDot l then l else l ++ ['.']

/-- The recurring final step `if not c.endswith('.'): c = c.rstrip(' ,;') + '.'`. -/
def finalFix (l : Str) : Str :=
  if endsDot l then l else rstripSet ((" ,;").data) l ++ ['.']

/-- Python `" ".join` of a list of fragments. -/
def joinSp : List Str → Str
  | [] => []
  | [x] => x
  | x :: y :: xs => x ++ ' ' :: joinSp (y :: xs)

/-- `" ".join([c for c in parts if c])`: drop empty fragments, join by spaces. -/
def joinNonEmpty (parts : List Str) : Str := joinSp (parts.filter (fun c => !c.isEmpty))

/-- Match the pattern word at the head of the text, case-insensitively when
`ci` is set; on success return the text after the match. -/
def subMatch (ci : Bool) : Str → Str → Option Str
  | [], rest => some rest
  | _ :: _, [] => none
  | a :: as, c :: cs =>
    if (if ci then a.toLower = c.toLower else a = c) then subMatch ci as cs else none

/-- The `\b` condition at the position after a match: end of text or a
non-word character. -/
def boundaryOk : Str → Bool
  | [] => true
  | c :: _ => !isWordChar c

/-- Whether the last character of the pattern word is a word character
(it determines the left-boundary state after a replacement). -/
def wordEndIsW (w : Str) : Bool :=
  match w.getLast? with
  | some c => isWordChar c
  | none => false

/-- Scanner for `re.sub(r'\b<w>\b', repl, text)`: at each position of the
original text, replace a whole-word occurrence of `w` (left boundary from the
preceding original character, right boundary from the character after the
match) and resume after it; otherwise copy one character.  Fuel is the length
of the text, which bounds the number of steps. -/
def subGo (ci : Bool) (w repl : Str) : Nat → Bool → Str → Str
  | 0, _, cs => cs
  | _ + 1, _, [] => []
  | fuel + 1, prevW, c :: cs =>
    match subMatch ci w (c :: cs) with
    | some rest =>
      if !prevW && boundaryOk rest then repl ++ subGo ci w repl fuel (wordEndIsW w) rest
      else c :: subGo ci w repl fuel (isWordChar c) cs
    | none => c :: subGo ci w repl fuel (isWordChar c) cs

/-- One `re.sub` pass of a whole-word pattern over a text. -/
def subWord (ci : Bool) (w repl text : Str) : Str := subGo ci w repl text.length false text

/-- Mirror of `subGo` that only reports whether some whole-word occurrence
exists (used to state when a pass is the identity). -/
def occGo (ci : Bool) (w : Str) : Nat → Bool → Str → Bool
  | 0, _, _ => false
  | _ + 1, _, [] => false
  | fuel + 1, prevW, c :: cs =>
    match subMatch ci w (c :: cs) with
    | some rest => (!prevW && boundaryOk rest) || occGo ci w fuel (isWordChar c) cs
    | none => occGo ci w fuel (isWordChar c) cs

/-- Whether the text has a whole-word occurrence of `w`. -/
def hasWordOcc (ci : Bool) (w text : Str) : Bool := occGo ci w text.length false text

/-- Embedding of `fix_pronouns_in_text(text, pronoun, possessive)` from the
cited variant (eight `re.sub` passes, in source order). -/
def fix_pronouns_in_text (text pronoun possessive : Str) : Str :=
  if text.isEmpty then text
  else
    let t1 := subWord true (("he").data) pronoun text
    let t2 := subWord false (("He").data) (pyCapitalize pronoun) t1
    let t3 := subWord true (("his").data) possessive t2
    let t4 := subWord false (("His").data) (pyCapitalize possessive) t3
    let t5 := subWord true (("him").data) pronoun t4
    let t6 := subWord false (("Him").data) (pyCapitalize pronoun) t5
    let t7 := subWord true (("himself").data) (pronoun ++ ("self").data) t6
    subWord true (("herself").data) (pronoun ++ ("self").data) t7

/-- A band-indexed statement bank: a Python dict in insertion order. -/
abbrev Bank := List (Int × Str)

/-- Python `bank.get(k, dflt)`. -/
def dictGet (d : Bank) (k : Int) (dflt : Str) : Str :=
  match d.find? (fun kv => kv.1 == k) with
  | some kv => kv.2
  | none => dflt

/-- Python `bank[k]` with the `KeyError` possibility made explicit. -/
def dictFind (d : Bank) (k : Int) : Option Str :=
  match d.find? (fun kv => kv.1 == k) with
  | some kv => some kv.2
  | none => none

/-- Python `list(bank.keys())`, in insertion order. -/
def dictKeys (d : Bank) : List Int := d.map Prod.fst

/-- Embedding of variant 6's `find_closest_score(score, bank)`:
`min(list(bank.keys()), key=lambda x: abs(x - score))`, which keeps the first
key attaining the minimal distance (Python `min` semantics); `none` models the
`ValueError` of `min` on an empty dict. -/
def find_closest_score (score : Int) (bank : Bank) : Option Int :=
  match dictKeys bank with
  | [] => none
  | k :: ks =>
    some (ks.foldl (fun best x =>
      if (x - score).natAbs < (best - score).natAbs then x else best) k)

/-- Modelled from the spec's words only (for comparison with the code): select
the nearest available band by absolute numeric distance, breaking distance
ties toward the lower band. -/
def claimNearestBand (score : Int) (keys : List Int) : Option Int :=
  match keys with
  | [] => none
  | k :: ks =>
    some (ks.foldl (fun best x =>
      if (x - score).natAbs < (best - score).natAbs ∨
         ((x - score).natAbs = (best - score).natAbs ∧ x < best) then x else best) k)

/-- Substring occurrence test (used to state facts about generated output). -/
def isSegmentOf (seg hay : Str) : Bool :=
  (List.range (hay.length + 1)).any (fun i => seg.isPrefixOf (hay.drop i))

/-- Digit-run value of a string, if it is a nonempty run of ASCII digits. -/
def digitsVal (ds : Str) : Option Nat :=
  if ds.isEmpty then none
  else if ds.all Char.isDigit then some (ds.foldl (fun a c => a * 10 + (c.toNat - 48)) 0)
  else none

/-- Embedding of Python `int(s)` on strings: optional surrounding whitespace,
optional sign, a digit run; `none` models `ValueError`. -/
def pyInt (s : Str) : Option Int :=
  match pyStrip s with
  | '-' :: ds => (digitsVal ds).map (fun n => -(n : Int))
  | '+' :: ds => (digitsVal ds).map (fun n => (n : Int))
  | ds => (digitsVal ds).map (fun n => (n : Int))

/-! Statement-bank data, transcribed from `statements_year5_English.py`.
Literal braces of the `\x7b\x7d` name placeholders are written with character
escapes. -/

def eng5_opening_phrases : List Str :=
  [("During Year 5 English lessons, \x7b\x7d consistently").data,
   ("Over the term, \x7b\x7d has").data,
   ("\x7b\x7d has demonstrated steady effort and focus in").data]

def eng5_attitude_bank : Bank :=
  [(90, ("shown outstanding enthusiasm and participation in class activities").data),
   (85, ("been very motivated and engaged with lessons").data),
   (80, ("participated well and shown interest in learning").data),
   (75, ("shown satisfactory effort in lessons").data),
   (70, ("been willing to try tasks with some support").data),
   (65, ("needed occasional encouragement to engage fully").data),
   (60, ("required guidance to maintain focus").data),
   (55, ("found it challenging to participate consistently").data),
   (40, ("needed significant support to take part in activities").data)]

def eng5_reading_bank : Bank :=
  [(90, ("can confidently read a range of texts, understanding key ideas and themes").data),
   (85, ("reads most texts fluently and can explain main ideas").data),
   (80, ("reads confidently and identifies key points with some support").data),
   (75, ("understands main ideas in texts when prompted").data),
   (70, ("can follow simple texts and answer basic questions").data),
   (65, ("requires help to understand texts and key details").data),
   (60, ("needs support to read and understand short passages").data),
   (55, ("struggles to recall main points from reading").data),
   (40, ("requires close guidance to make sense of simple texts").data)]

def eng5_writing_bank : Bank :=
  [(90, ("writes clear, detailed paragraphs using varied vocabulary and punctuation").data),
   (85, ("produces well-structured sentences with correct punctuation").data),
   (80, ("writes sentences that are mostly clear and structured").data),
   (75, ("can write simple paragraphs with some support").data),
   (70, ("writes basic sentences and ideas with guidance").data),
   (65, ("needs support to organise ideas in writing").data),
   (60, ("struggles to form coherent sentences").data),
   (55, ("requires help to express ideas clearly in writing").data),
   (40, ("needs significant support to write simple sentences").data)]

def eng5_reading_target_bank : Bank :=
  [(90, ("explore a wider range of texts independently, summarising ideas").data),
   (85, ("develop inference skills and discuss authors’ choices").data),
   (80, ("practice explaining key points and answering questions").data),
   (75, ("focus on understanding main ideas and supporting details").data),
   (70, ("read short texts and practise answering comprehension questions").data),
   (65, ("develop confidence in reading with support").data),
   (60, ("focus on understanding sentences and short passages").data),
   (55, ("practice recalling information from texts with guidance").data),
   (40, ("work on reading and understanding simple sentences daily").data)]

def eng5_writing_target_bank : Bank :=
  [(90, ("experiment with more complex sentences and rich vocabulary").data),
   (85, ("improve paragraph structure and punctuation accuracy").data),
   (80, ("focus on clear sentences and organising ideas").data),
   (75, ("practice writing complete paragraphs with guidance").data),
   (70, ("work on writing simple sentences independently").data),
   (65, ("focus on forming sentences and organising ideas").data),
   (60, ("practice using basic punctuation and sentence structure").data),
   (55, ("develop confidence in expressing ideas in writing").data),
   (40, ("work on forming complete sentences and basic vocabulary").data)]

def eng5_closer_bank : List Str :=
  [("With continued effort, \x7b\x7d is expected to make steady progress next term.").data,
   ("\x7b\x7d will benefit from regular practice and support to reach their potential.").data,
   ("Further encouragement and practice will help \x7b\x7d develop their reading and writing skills.").data]

/-! Statement-bank data, transcribed from `statements_year7_science.py` (whose
banks include a `0` band that the Year-5 English banks lack). -/

def sci7_opening_phrases : List Str :=
  [("This term,").data,
   ("Throughout this term,").data,
   ("Over the course of this term,").data,
   ("During this term,").data,
   ("In this term,").data,
   ("Over the past term,").data]

def sci7_attitude_bank : Bank :=
  [(90, ("approached lessons with excellent curiosity and initiative, often exploring ideas beyond the classroom").data),
   (85, ("demonstrated high engagement and consistently contributed insightful ideas in practical work").data),
   (80, ("showed enthusiasm for science and applied knowledge confidently in investigations").data),
   (75, ("consistently worked hard in lessons and contributed effectively to class discussions").data),
   (70, ("was attentive in lessons and applied instructions well").data),
   (65, ("showed steady engagement and completed tasks when prompted").data),
   (60, ("required occasional support to stay focused and maintain momentum").data),
   (55, ("needed regular guidance to remain confident and complete tasks effectively").data),
   (40, ("found it challenging to stay focused and needed consistent encouragement").data),
   (0, ("required significant support to engage in scientific concepts and activities").data)]

def sci7_science_bank : Bank :=
  [(90, ("demonstrated a comprehensive understanding of scientific concepts and applied reasoning to explain complex phenomena").data),
   (85, ("showed a strong understanding of scientific ideas and applied them effectively in practical investigations").data),
   (80, ("understood scientific concepts and applied knowledge correctly to experiments and explanations").data),
   (75, ("understood most scientific ideas and drew logical conclusions from evidence").data),
   (70, ("grasped key principles and applied them with support in experiments").data),
   (65, ("showed developing understanding and applied knowledge when guided").data),
   (60, ("demonstrated basic understanding and applied concepts with assistance").data),
   (55, ("had limited understanding of key ideas and needed guidance to apply them").data),
   (40, ("struggled to explain simple scientific ideas and required support").data),
   (0, ("needed significant support to understand and apply scientific concepts").data)]

def sci7_target_bank : Bank :=
  [(90, ("extend learning by designing complex investigations and explaining outcomes using scientific reasoning").data),
   (85, ("develop further by applying knowledge to unfamiliar contexts and drawing evidence-based conclusions").data),
   (80, ("consolidate understanding and connect ideas across different topics in experiments").data),
   (75, ("practice analysing results and providing clear scientific explanations").data),
   (70, ("work on applying concepts accurately in practical tasks and improving reasoning").data),
   (65, ("focus on using scientific vocabulary correctly and explaining ideas clearly").data),
   (60, ("practise applying knowledge with support in experiments").data),
   (55, ("work on recalling key facts and applying simple concepts").data),
   (40, ("focus on completing tasks with guidance and understanding basic ideas").data),
   (0, ("begin with highly guided tasks to develop foundational knowledge and skills").data)]

def sci7_closer_bank : List Str :=
  [("Overall, progress in science was clear, with increasing confidence in applying concepts and reasoning").data,
   ("With ongoing support, further development of skills and understanding is expected next term").data,
   ("Students showed growing competence in investigating and explaining scientific ideas").data]

/-- The science-shaped statement set of variant 1 (opening pool, attitude /
science / target banks, closer pool). -/
structure ScienceBanks where
  openings : List Str
  attitude : Bank
  science : Bank
  target : Bank
  closers : List Str

/-- The English-shaped statement set of variant 1. -/
structure EnglishBanks where
  openings : List Str
  attitude : Bank
  reading : Bank
  writing : Bank
  readingTarget : Bank
  writingTarget : Bank
  closers : List Str

def sci7Banks : ScienceBanks :=
  ⟨sci7_opening_phrases, sci7_attitude_bank, sci7_science_bank, sci7_target_bank, sci7_closer_bank⟩

/-- The snapshot's English-shaped statement set (Year 5 English). -/
def eng5Banks : EnglishBanks :=
  ⟨eng5_opening_phrases, eng5_attitude_bank, eng5_reading_bank, eng5_writing_bank,
   eng5_reading_target_bank, eng5_writing_target_bank, eng5_closer_bank⟩

def KeyErrorS : Str := ("KeyError").data

def IndexErrorS : Str := ("IndexError").data

def ValueErrorS : Str := ("ValueError").data

/-- The shared tail of variant 1's `generate_comment` (its last five lines):
join the non-empty parts, `strip()`, guarantee a final period, truncate, and
re-fix the final period. -/
def v1Tail (parts : List Str) : Str :=
  finalFix (truncate_comment (ensureDot (pyStrip (joinNonEmpty parts))) TARGET_CHARS)

/-- Embedding of variant 1's `generate_comment`, science branch (the year-7
and year-8 science branches are this function applied to the respective
banks).  `openIdx`/`closerIdx` stand for the `random.choice` draws; a direct
`bank[key]` miss is the `KeyError`, and indexing `science_text[0]` on an empty
string is the `IndexError`. -/
def generate_comment_v1_sci (B : ScienceBanks) (name : Str) (pronouns : Str × Str)
    (att achieve target : Int) (attitude_target : Str) (openIdx closerIdx : Nat) :
    Except Str Str :=
  let p := pronouns.1
  let pPoss := pronouns.2
  let nm := sanitize_input name
  let opening := (B.openings.get? openIdx).getD []
  match dictFind B.attitude att with
  | none => .error KeyErrorS
  | some attRaw =>
    let attitude_text := fix_pronouns_in_text attRaw p pPoss
    let attitude_sentence := ensureDot (opening ++ ' ' :: nm ++ ' ' :: attitude_text)
    match dictFind B.science achieve with
    | none => .error KeyErrorS
    | some sciRaw =>
      let science_text0 := fix_pronouns_in_text sciRaw p pPoss
      match science_text0 with
      | [] => .error IndexErrorS
      | c0 :: rest0 =>
        let science_text :=
          if c0.isLower then p ++ ' ' :: c0 :: rest0 else c0 :: rest0
        let reading_sentence := ensureDot science_text
        match dictFind B.target target with
        | none => .error KeyErrorS
        | some tgtRaw =>
          let target_text := fix_pronouns_in_text tgtRaw p pPoss
          let reading_target_sentence :=
            ensureDot (("For the next term, ").data ++ p ++ (" should ").data ++
              lowercase_first target_text)
          let closer_sentence := (B.closers.get? closerIdx).getD []
          let attitude_target_sentence :=
            if attitude_target.isEmpty then []
            else ensureDot (lowercase_first (sanitize_input attitude_target))
          .ok (v1Tail [attitude_sentence, reading_sentence, [], reading_target_sentence,
            [], closer_sentence, attitude_target_sentence])

/-- Embedding of variant 1's `generate_comment`, English branch. -/
def generate_comment_v1_eng (B : EnglishBanks) (name : Str) (pronouns : Str × Str)
    (att achieve target : Int) (attitude_target : Str) (openIdx closerIdx : Nat) :
    Except Str Str :=
  let p := pronouns.1
  let pPoss := pronouns.2
  let nm := sanitize_input name
  let opening := (B.openings.get? openIdx).getD []
  match dictFind B.attitude att with
  | none => .error KeyErrorS
  | some attRaw =>
    let attitude_text := fix_pronouns_in_text attRaw p pPoss
    let attitude_sentence := ensureDot (opening ++ ' ' :: nm ++ ' ' :: attitude_text)
    match dictFind B.reading achieve with
    | none => .error KeyErrorS
    | some readRaw =>
      let reading_text0 := fix_pronouns_in_text readRaw p pPoss
      match reading_text0 with
      | [] => .error IndexErrorS
      | rc :: rrest =>
        let reading_text := if rc.isLower then p ++ ' ' :: rc :: rrest else rc :: rrest
        let reading_sentence := ensureDot (("In reading, ").data ++ reading_text)
        match dictFind B.writing achieve with
        | none => .error KeyErrorS
        | some writRaw =>
          let writing_text0 := fix_pronouns_in_text writRaw p pPoss
          match writing_text0 with
          | [] => .error IndexErrorS
          | wc :: wrest =>
            let writing_text := if wc.isLower then p ++ ' ' :: wc :: wrest else wc :: wrest
            let writing_sentence := ensureDot (("In writing, ").data ++ writing_text)
            match dictFind B.readingTarget target with
            | none => .error KeyErrorS
            | some rtRaw =>
              let reading_target_text := fix_pronouns_in_text rtRaw p pPoss
              let reading_target_sentence :=
                ensureDot (("For the next term, ").data ++ p ++ (" should ").data ++
                  lowercase_first reading_target_text)
              match dictFind B.writingTarget target with
              | none => .error KeyErrorS
              | some wtRaw =>
                let writing_target_text := fix_pronouns_in_text wtRaw p pPoss
                let writing_target_sentence :=
                  ensureDot (("Additionally, ").data ++ p ++ (" should ").data ++
                    lowercase_first writing_target_text)
                let closer_sentence := (B.closers.get? closerIdx).getD []
                let attitude_target_sentence :=
                  if attitude_target.isEmpty then []
                  else ensureDot (lowercase_first (sanitize_input attitude_target))
                .ok (v1Tail [attitude_sentence, reading_sentence, writing_sentence,
                  reading_target_sentence, writing_target_sentence, closer_sentence,
                  attitude_target_sentence])

/-- Variant 1's `generate_comment` dispatcher on (subject, year).  The
year-7/8 English and year-8 science statement modules are not part of the
repository snapshot, so those branches report the missing module; no theorem
below depends on them. -/
def generate_comment_v1 (subject : Str) (year : Int) (name : Str) (pronouns : Str × Str)
    (att achieve target : Int) (attitude_target : Str) (openIdx closerIdx : Nat) :
    Except Str Str :=
  if subject = ("English").data then
    .error (("statements module for English years 7 and 8 absent from snapshot").data)
  else if year = 7 then
    generate_comment_v1_sci sci7Banks name pronouns att achieve target attitude_target
      openIdx closerIdx
  else
    .error (("statements module for science year 8 absent from snapshot").data)

/-- Embedding of variant 2's `generate_comment` instantiated at
(subject, year) = ("English", 5): the dynamic loader finds every required
attribute in `statements_year5_English`, so the banks are the Year-5 English
data.  This variant uses `.get(key, "")` everywhere, so it is total. -/
def generate_comment_v2_eng5 (name : Str) (pronouns : Str × Str)
    (att achieve target : Int) (attitude_target : Str) (openIdx closerIdx : Nat) : Str :=
  let p := pronouns.1
  let pPoss := pronouns.2
  let nm := sanitize_input name
  let opening :=
    if eng5_opening_phrases.isEmpty then [] else (eng5_opening_phrases.get? openIdx).getD []
  let attitude_text := fix_pronouns_in_text (dictGet eng5_attitude_bank att []) p pPoss
  let attitude_sentence0 := pyStrip (opening ++ ' ' :: nm ++ ' ' :: attitude_text)
  let attitude_sentence :=
    if attitude_sentence0.isEmpty then attitude_sentence0 else ensureDot attitude_sentence0
  let reading_text0 := fix_pronouns_in_text (dictGet eng5_reading_bank achieve []) p pPoss
  let reading_text :=
    match reading_text0 with
    | [] => ([] : Str)
    | c :: cs => if c.isLower then p ++ ' ' :: c :: cs else c :: cs
  let reading_sentence0 := ("In reading, ").data ++ reading_text
  let reading_sentence :=
    if reading_sentence0.isEmpty then reading_sentence0 else ensureDot reading_sentence0
  let writing_text0 := fix_pronouns_in_text (dictGet eng5_writing_bank achieve []) p pPoss
  let writing_text :=
    match writing_text0 with
    | [] => ([] : Str)
    | c :: cs => if c.isLower then p ++ ' ' :: c :: cs else c :: cs
  let writing_sentence := ("In writing, ").data ++ writing_text
  let reading_target_text :=
    fix_pronouns_in_text (dictGet eng5_reading_target_bank target []) p pPoss
  let reading_target_sentence0 :=
    ("For the next term, ").data ++ p ++ (" should ").data ++ lowercase_first reading_target_text
  let reading_target_sentence :=
    if reading_target_sentence0.isEmpty then reading_target_sentence0
    else ensureDot reading_target_sentence0
  let writing_target_text :=
    fix_pronouns_in_text (dictGet eng5_writing_target_bank target []) p pPoss
  let writing_target_sentence :=
    ("Additionally, ").data ++ p ++ (" should ").data ++ lowercase_first writing_target_text
  let closer_sentence :=
    if eng5_closer_bank.isEmpty then [] else (eng5_closer_bank.get? closerIdx).getD []
  let attitude_target_sentence :=
    if attitude_target.isEmpty then []
    else ensureDot (' ' :: lowercase_first (sanitize_input attitude_target))
  let parts := [attitude_sentence ++ attitude_target_sentence, reading_sentence,
    writing_sentence, reading_target_sentence, writing_target_sentence, closer_sentence]
  finalFix (truncate_comment (ensureDot (joinNonEmpty parts)) TARGET_CHARS)

/-- Global names bound to fragment-pool lists by the `from ... import *` of
the statement modules present in the snapshot (variant 4).  Star-imports
rebind the same unprefixed names module after module, so the recorded value is
one representative; no theorem depends on the values, only on which names
exist. -/
def v4_list_globals (key : Str) : Option (List Str) :=
  if key = ("opening_phrases").data then some eng5_opening_phrases
  else if key = ("closer_bank").data then some eng5_closer_bank
  else none

/-- Global names bound to band-indexed dictionaries by the same star-imports
(variant 4); same caveat on the representative values. -/
def v4_dict_globals (key : Str) : Option Bank :=
  if key = ("attitude_bank").data then some sci7_attitude_bank
  else if key = ("reading_bank").data then some eng5_reading_bank
  else if key = ("writing_bank").data then some eng5_writing_bank
  else if key = ("reading_target_bank").data then some eng5_reading_target_bank
  else if key = ("writing_target_bank").data then some eng5_writing_target_bank
  else if key = ("science_bank").data then some sci7_science_bank
  else if key = ("target_bank").data then some sci7_target_bank
  else if key = ("achievement_bank").data then some sci7_science_bank
  else none

/-- Decimal rendering of an integer, for variant 4's f-string keys. -/
def intStr (i : Int) : Str := (toString i).data

/-- Variant 4's `bank_prefix = f"{subject.lower()}_{year}"`. -/
def bank_prefix (subject : Str) (year : Int) : Str :=
  pyLower subject ++ '_' :: intStr year

/-- Embedding of variant 4's `generate_comment`: every bank is fetched from
`globals()` under a constructed name inside a `try`, and any `KeyError`
(unknown global name or missing band key) is caught and turned into the
returned empty string. -/
def generate_comment_v4 (subject : Str) (year : Int) (name : Str) (pronouns : Str × Str)
    (att achieve target : Int) (attitude_target : Str) (openIdx closerIdx : Nat) : Str :=
  let p := pronouns.1
  let pPoss := pronouns.2
  let nm := sanitize_input name
  let pre := bank_prefix subject year
  match v4_list_globals (("opening_").data ++ pre) with
  | none => []
  | some openings =>
    let opening := (openings.get? openIdx).getD []
    match (v4_dict_globals (("attitude_").data ++ pre)).bind (fun b => dictFind b att) with
    | none => []
    | some attRaw =>
      let attitude_text := fix_pronouns_in_text attRaw p pPoss
      match (v4_dict_globals (pyLower subject ++ ("_bank_").data ++ pre)).bind
          (fun b => dictFind b achieve) with
      | none => []
      | some achRaw =>
        let achievement_text := fix_pronouns_in_text achRaw p pPoss
        match (v4_dict_globals (("target_").data ++ pre)).bind (fun b => dictFind b target) with
        | none => []
        | some tgtRaw =>
          let target_text := fix_pronouns_in_text tgtRaw p pPoss
          let target_write_text :=
            dictGet ((v4_dict_globals (("target_write_").data ++ pre)).getD []) target []
          match v4_list_globals (("closer_").data ++ pre) with
          | none => []
          | some closers =>
            let closer_sentence := (closers.get? closerIdx).getD []
            let attitude_sentence := opening ++ ' ' :: nm ++ ' ' :: attitude_text ++ ['.']
            let reading_sentence :=
              if pyLower subject ≠ ("science").data then p ++ ' ' :: achievement_text ++ ['.']
              else achievement_text ++ ['.']
            let reading_target_sentence :=
              ("For the next term, ").data ++ p ++ (" should ").data ++
                lowercase_first target_text ++ ['.']
            let writing_target_sentence :=
              if !target_write_text.isEmpty then
                ("Additionally, ").data ++ p ++ (" should ").data ++
                  lowercase_first target_write_text ++ ['.']
              else []
            let attitude_target_sentence :=
              if attitude_target.isEmpty then []
              else ' ' :: lowercase_first (pyStrip attitude_target) ++ ['.']
            let parts := [attitude_sentence ++ attitude_target_sentence, reading_sentence,
              reading_target_sentence, writing_target_sentence, closer_sentence]
            let comment := pyStrip (joinNonEmpty parts)
            ensureDot (truncate_comment comment TARGET_CHARS)

/-- Variant 6's pre-resolution of the attitude band: nearest key of the
Year-5 English attitude bank ("use any attitude bank as reference"). -/
def v6_resolve_att (att : Int) : Option Int := find_closest_score att eng5_attitude_bank

/-- Variant 6's pre-resolution of the achievement band (Year-5 English
reading bank as reference). -/
def v6_resolve_achieve (achieve : Int) : Option Int :=
  find_closest_score achieve eng5_reading_bank

/-- Variant 6's pre-resolution of the target band (Year-5 English reading
target bank as reference). -/
def v6_resolve_target (target : Int) : Option Int :=
  find_closest_score target eng5_reading_target_bank

/-- The shared tail of variant 6's `generate_comment`: join, truncate, and
fix the final period (no `strip()` and no pre-truncation period in this
variant). -/
def v6Tail (parts : List Str) : Str :=
  finalFix (truncate_comment (joinNonEmpty parts) TARGET_CHARS)

/-- Embedding of variant 6's `generate_comment`, (year 7, Science) branch,
after the band pre-resolution against the Year-5 English reference banks. -/
def generate_comment_v6_sci7 (name : Str) (pronouns : Str × Str)
    (att achieve target : Int) (attitude_target : Str) (openIdx closerIdx : Nat) :
    Except Str Str :=
  let p := pronouns.1
  let pPoss := pronouns.2
  let nm := sanitize_input name
  match v6_resolve_att att, v6_resolve_achieve achieve, v6_resolve_target target with
  | some att', some achieve', some target' =>
    let opening := (sci7_opening_phrases.get? openIdx).getD []
    match dictFind sci7_attitude_bank att' with
    | none => .error KeyErrorS
    | some attRaw =>
      let attitude_text := fix_pronouns_in_text attRaw p pPoss
      match dictFind sci7_science_bank achieve' with
      | none => .error KeyErrorS
      | some sciRaw =>
        let reading_text := fix_pronouns_in_text sciRaw p pPoss
        match dictFind sci7_target_bank target' with
        | none => .error KeyErrorS
        | some tgtRaw =>
          let reading_target_text := fix_pronouns_in_text tgtRaw p pPoss
          let closer_sentence := (sci7_closer_bank.get? closerIdx).getD []
          let attitude_target_sentence :=
            if attitude_target.isEmpty then [] else ' ' :: pyStrip attitude_target
          let parts := [opening ++ ' ' :: nm ++ ' ' :: attitude_text ++ attitude_target_sentence,
            reading_text, [],
            (if reading_target_text.isEmpty then []
             else ("For the next term, ").data ++ p ++ (" should ").data ++
               lowercase_first reading_target_text),
            [], closer_sentence]
          .ok (v6Tail parts)
  | _, _, _ => .error ValueErrorS

/-- Embedding of variant 6's `generate_comment`, (year 5, English) branch. -/
def generate_comment_v6_eng5 (name : Str) (pronouns : Str × Str)
    (att achieve target : Int) (attitude_target : Str) (openIdx closerIdx : Nat) :
    Except Str Str :=
  let p := pronouns.1
  let pPoss := pronouns.2
  let nm := sanitize_input name
  match v6_resolve_att att, v6_resolve_achieve achieve, v6_resolve_target target with
  | some att', some achieve', some target' =>
    let opening := (eng5_opening_phrases.get? openIdx).getD []
    match dictFind eng5_attitude_bank att' with
    | none => .error KeyErrorS
    | some attRaw =>
      let attitude_text := fix_pronouns_in_text attRaw p pPoss
      match dictFind eng5_reading_bank achieve' with
      | none => .error KeyErrorS
      | some readRaw =>
        let reading_text := fix_pronouns_in_text readRaw p pPoss
        match dictFind eng5_writing_bank achieve' with
        | none => .error KeyErrorS
        | some writRaw =>
          let writing_text := fix_pronouns_in_text writRaw p pPoss
          match dictFind eng5_reading_target_bank target' with
          | none => .error KeyErrorS
          | some rtRaw =>
            let reading_target_text := fix_pronouns_in_text rtRaw p pPoss
            match dictFind eng5_writing_target_bank target' with
            | none => .error KeyErrorS
            | some wtRaw =>
              let writing_target_text := fix_pronouns_in_text wtRaw p pPoss
              let closer_sentence := (eng5_closer_bank.get? closerIdx).getD []
              let attitude_target_sentence :=
                if attitude_target.isEmpty then [] else ' ' :: pyStrip attitude_target
              let parts :=
                [opening ++ ' ' :: nm ++ ' ' :: attitude_text ++ attitude_target_sentence,
                 reading_text, writing_text,
                 (if reading_target_text.isEmpty then []
                  else ("For the next term, ").data ++ p ++ (" should ").data ++
                    lowercase_first reading_target_text),
                 (if writing_target_text.isEmpty then []
                  else ("Additionally, ").data ++ p ++ (" should ").data ++
                    lowercase_first writing_target_text),
                 closer_sentence]
              .ok (v6Tail parts)
  | _, _, _ => .error ValueErrorS

/-- Variant 6's `generate_comment` dispatcher.  Branches whose statement
modules are absent from the repository snapshot (or whose imports name
attributes the snapshot modules do not define) report that instead; no
theorem below depends on them. -/
def generate_comment_v6 (subject : Str) (year : Int) (name : Str) (pronouns : Str × Str)
    (att achieve target : Int) (attitude_target : Str) (openIdx closerIdx : Nat) :
    Except Str Str :=
  if year = 5 ∧ subject = ("English").data then
    generate_comment_v6_eng5 name pronouns att achieve target attitude_target openIdx closerIdx
  else if year = 7 ∧ subject ≠ ("English").data ∧ subject ≠ ("Maths").data then
    generate_comment_v6_sci7 name pronouns att achieve target attitude_target openIdx closerIdx
  else
    .error (("statements module absent from snapshot").data)

/-- One CSV row of a batch upload, with the raw string fields the loops pass
through `str(...)` before converting. -/
structure Row where
  studentName : Str
  gender : Str
  subject : Str
  year : Str
  attitude : Str
  achievement : Str
  target : Str

/-- One successful batch result (the per-row dict the loops build). -/
structure BatchEntry where
  name : Str
  year : Int
  subject : Str
  comment : Str
  commentLength : Nat

/-- The body of one iteration of variant 1's batch-upload loop: pronouns,
integer conversions, and the `generate_comment` call, any failure being the
exception the surrounding `try` would see.  `random.choice` is modelled by
index 0 for both pools. -/
def processRow_v1 (r : Row) : Except Str BatchEntry :=
  let pronouns := get_pronouns (pyLower r.gender)
  match pyInt r.year with
  | none => .error ValueErrorS
  | some y =>
    match pyInt r.attitude, pyInt r.achievement, pyInt r.target with
    | some a, some ach, some t =>
      match generate_comment_v1 r.subject y r.studentName pronouns a ach t [] 0 0 with
      | .error e => .error e
      | .ok c => .ok ⟨sanitize_input r.studentName, y, r.subject, c, c.length⟩
    | _, _, _ => .error ValueErrorS

/-- Variant 1's batch-upload loop: each row is processed inside its own
`try/except`, the outcome (result or reported error) is recorded, and the
loop continues. -/
def batchLoop_v1 (acc : List (Except Str BatchEntry)) : List Row → List (Except Str BatchEntry)
  | [] => acc
  | r :: rs => batchLoop_v1 (acc ++ [processRow_v1 r]) rs

/-- The body of one iteration of variant 6's Generate-All-Comments loop
(no `try` around it). -/
def processRow_v6 (r : Row) : Except Str BatchEntry :=
  let pronouns := get_pronouns r.gender
  match pyInt r.year with
  | none => .error ValueErrorS
  | some y =>
    match pyInt r.attitude, pyInt r.achievement, pyInt r.target with
    | some a, some ach, some t =>
      match generate_comment_v6 r.subject y r.studentName pronouns a ach t [] 0 0 with
      | .error e => .error e
      | .ok c => .ok ⟨r.studentName, y, r.subject, c, c.length⟩
    | _, _, _ => .error ValueErrorS

/-- Variant 6's Generate-All-Comments loop: results accumulate in a local
list, and an exception in any row propagates out of the loop, discarding the
accumulated results. -/
def batchLoop_v6 (acc : List BatchEntry) : List Row → Except Str (List BatchEntry)
  | [] => .ok acc
  | r :: rs =>
    match processRow_v6 r with
    | .error e => .error e
    | .ok en => batchLoop_v6 (acc ++ [en]) rs

/-- The three values `get_pronouns` can return. -/
def pronounOptions : List (Str × Str) :=
  [(("he").data, ("his").data), (("she").data, ("her").data), (("they").data, ("their").data)]

/-! Shared lemmas. -/

lemma get_pronouns_cases (g : Str) :
    get_pronouns g = (("he").data, ("his").data) ∨
    get_pronouns g = (("she").data, ("her").data) ∨
    get_pronouns g = (("they").data, ("their").data) := by
  unfold get_pronouns
  by_cases h1 : pyLower g = ("male").data
  · simp [h1]
  · by_cases h2 : pyLower g = ("female").data
    · simp [h1, h2]
    · simp [h1, h2]

lemma get_pronouns_mem_options (g : Str) : get_pronouns g ∈ pronounOptions := by
  rcases get_pronouns_cases g with h | h | h <;> rw [h] <;> simp [pronounOptions]

lemma pyStrip_length_le (l : Str) : (pyStrip l).length ≤ l.length :=
  le_trans (List.IsPrefix.length_le (List.rdropWhile_prefix _ _))
    (List.IsSuffix.length_le (List.dropWhile_suffix _))

lemma pyTitleGo_length : ∀ (b : Bool) (l : Str), (pyTitleGo b l).length = l.length := by
  intro b l
  induction l generalizing b with
  | nil => rfl
  | cons c cs ih =>
    unfold pyTitleGo
    by_cases h : c.isAlpha <;> simp [h, ih]

lemma sanitize_input_length_le (text : Str) : (sanitize_input text).length ≤ 100 := by
  unfold sanitize_input pyTitle
  rw [pyTitleGo_length]
  refine le_trans (pyStrip_length_le _) ?_
  simp [List.length_take]

/-! Claim theorems. -/

/-- C4: the claim that pronoun rewriting is case-preserving at the token level
fails on the code: the first, case-insensitive rule `\bhe\b → pronoun` already
consumes a capitalized `He` and substitutes the lowercase replacement, so the
dedicated capitalized rule never fires.  Evaluating the code at the failing
input: "He works hard" with pronouns (she, her) yields "she works hard", not
"She works hard". -/
theorem c4_capitalization_lost :
    fix_pronouns_in_text (("He works hard").data) (("she").data) (("her").data) =
      ("she works hard").data ∧
    ("she works hard").data ≠ ("She works hard").data := by
  exact ⟨by decide, by decide⟩

/-- C7: pronoun resolution never fails and is the fixed case-insensitive
3-way mapping: a label lowering to "male" gives (he, his), one lowering to
"female" gives (she, her), and every other label — including "Nonbinary" —
gives (they, their). -/
theorem c7_gender_fallback :
    (∀ g : Str, pyLower g = ("male").data → get_pronouns g = (("he").data, ("his").data)) ∧
    (∀ g : Str, pyLower g = ("female").data → get_pronouns g = (("she").data, ("her").data)) ∧
    (∀ g : Str, pyLower g ≠ ("male").data → pyLower g ≠ ("female").data →
      get_pronouns g = (("they").data, ("their").data)) ∧
    get_pronouns (("Nonbinary").data) = (("they").data, ("their").data) := by
  refine ⟨?_, ?_, ?_, by decide⟩
  · intro g h; unfold get_pronouns; simp [h]
  · intro g h; unfold get_pronouns; simp [h]
  · intro g h1 h2; unfold get_pronouns; simp [h1, h2]

/-- Witness for C7 at the concrete labels "MALE", "Female" and "Nonbinary". -/
theorem c7_gender_fallback_witness :
    get_pronouns (("MALE").data) = (("he").data, ("his").data) ∧
    get_pronouns (("Female").data) = (("she").data, ("her").data) ∧
    get_pronouns (("Nonbinary").data) = (("they").data, ("their").data) :=
  ⟨c7_gender_fallback.1 _ (by decide), c7_gender_fallback.2.1 _ (by decide),
   c7_gender_fallback.2.2.2⟩

/-- C8: the claim that the student's name is substituted into the opening and
closer templates so that no placeholder remains fails on the code: the
composer concatenates `f"{opening} {name} {attitude_text}"` without ever
formatting the template, so the literal placeholder of the Year-5 English
opening (and closer) survives in the generated comment. -/
theorem c8_placeholder_remains :
    isSegmentOf (("\x7b\x7d").data)
      (generate_comment_v2_eng5 (("Alice").data) (("she").data, ("her").data)
        75 75 75 [] 0 0) = true := by
  decide

/-- C9: `truncate_comment(c, 499)` returns `c` unchanged when `len(c) <= 499`
and otherwise returns a prefix of `c`: it never inserts, reorders, or appends
characters relative to its input. -/
theorem c9_truncate_front_segment : ∀ c : Str,
    (c.length ≤ TARGET_CHARS → truncate_comment c TARGET_CHARS = c) ∧
    ∃ t, truncate_comment c TARGET_CHARS ++ t = c := by
  intro c
  constructor
  · intro h; unfold truncate_comment; simp [h]
  · by_cases h : c.length ≤ TARGET_CHARS
    · exact ⟨[], by unfold truncate_comment; simp [h]⟩
    · have hpre : truncate_comment c TARGET_CHARS <+: c := by
        simp only [truncate_comment, if_neg h]
        have h12 : rstripSet ((" ,;.").data) (c.take TARGET_CHARS) <+: c :=
          (List.rdropWhile_prefix _ _).trans (List.take_prefix _ _)
        refine List.IsPrefix.trans ?_ h12
        split
        · exact List.take_prefix _ _
        · exact List.prefix_rfl
      exact hpre

/-- Witness for C9 at a short input (identity case) and via the prefix
conjunct. -/
theorem c9_truncate_front_segment_witness :
    truncate_comment (("Hello there.").data) TARGET_CHARS = ("Hello there.").data ∧
    ∃ t, truncate_comment (("Hello there.").data) TARGET_CHARS ++ t = ("Hello there.").data :=
  ⟨(c9_truncate_front_segment _).1 (by decide), (c9_truncate_front_segment _).2⟩

lemma foldl_closest_spec (score : Int) :
    ∀ (ks : List Int) (k : Int),
      (ks.foldl (fun best x =>
        if (x - score).natAbs < (best - score).natAbs then x else best) k) ∈ k :: ks ∧
      ∀ j ∈ k :: ks,
        ((ks.foldl (fun best x =>
          if (x - score).natAbs < (best - score).natAbs then x else best) k) - score).natAbs ≤
          (j - score).natAbs := by
  intro ks
  induction ks with
  | nil =>
    intro k
    refine ⟨List.mem_singleton.mpr rfl, ?_⟩
    intro j hj
    rw [List.mem_singleton] at hj
    subst hj
    exact le_refl _
  | cons x xs ih =>
    intro k
    simp only [List.foldl_cons]
    by_cases hx : (x - score).natAbs < (k - score).natAbs
    · rw [if_pos hx]
      obtain ⟨hmem, hle⟩ := ih x
      refine ⟨?_, ?_⟩
      · rcases List.mem_cons.mp hmem with h | h
        · rw [h]
          exact List.mem_cons_of_mem _ (List.mem_cons_self _ _)
        · exact List.mem_cons_of_mem _ (List.mem_cons_of_mem _ h)
      · intro j hj
        rcases List.mem_cons.mp hj with h | h
        · subst h
          exact le_trans (hle x (List.mem_cons_self _ _)) (le_of_lt hx)
        · exact hle j h
    · rw [if_neg hx]
      obtain ⟨hmem, hle⟩ := ih k
      refine ⟨?_, ?_⟩
      · rcases List.mem_cons.mp hmem with h | h
        · rw [h]
          exact List.mem_cons_self _ _
        · exact List.mem_cons_of_mem _ (List.mem_cons_of_mem _ h)
      · intro j hj
        rcases List.mem_cons.mp hj with h | h
        · subst h
          exact hle j (List.mem_cons_self _ _)
        · rcases List.mem_cons.mp h with h2 | h2
          · subst h2
            exact le_trans (hle k (List.mem_cons_self _ _)) (Nat.le_of_not_lt hx)
          · exact hle j (List.mem_cons_of_mem _ h2)

/-- C2 counterexample: the band resolution of the final variant does not use
the required mapping of the request.  For a Science year-7 request with
attitude band 10, `find_closest_score` runs over the Year-5 English
reference keys (which lack the 0 band) and yields 40, whereas the nearest
available band of the required Science year-7 attitude mapping is 0, so the
generated comment carries the 40-band fragment and not the 0-band one. -/
theorem c2_band_resolution_counterexample :
    v6_resolve_att 10 = some 40 ∧
    claimNearestBand 10 (dictKeys sci7_attitude_bank) = some 0 ∧
    (40 : Int) ≠ 0 ∧
    (generate_comment_v6_sci7 (("Alice").data) (("she").data, ("her").data)
        10 75 75 [] 0 0).toOption.map
      (fun s => isSegmentOf (("found it challenging to stay focused").data) s) =
      some true ∧
    (generate_comment_v6_sci7 (("Alice").data) (("she").data, ("her").data)
        10 75 75 [] 0 0).toOption.map
      (fun s => isSegmentOf (("required significant support to engage").data) s) =
      some false := by
  refine ⟨by decide, by decide, by decide, by decide, by decide⟩

/-- C2 amended: `find_closest_score` does select a nearest key by absolute
numeric distance — but over the keys of the bank it is handed (the final
variant always hands it the Year-5 English reference banks, independently for
attitude, achievement and target), not over the keys of the request's own
required mapping; over those reference keys no integer score produces a
distance tie. -/
theorem c2_band_resolution_amended : ∀ (score : Int) (bank : Bank) (k : Int),
    find_closest_score score bank = some k →
    k ∈ dictKeys bank ∧ ∀ j ∈ dictKeys bank, (k - score).natAbs ≤ (j - score).natAbs := by
  intro score bank k h
  unfold find_closest_score at h
  cases hk : dictKeys bank with
  | nil => rw [hk] at h; cases h
  | cons k0 ks =>
    rw [hk] at h
    injection h with h'
    subst h'
    exact foldl_closest_spec score ks k0

/-- Witness for the C2 amended statement: band 72 resolves to 70 over the
Year-5 English attitude keys (the spec's own example). -/
theorem c2_band_resolution_amended_witness :
    (70 : Int) ∈ dictKeys eng5_attitude_bank ∧
    ∀ j ∈ dictKeys eng5_attitude_bank, ((70 : Int) - 72).natAbs ≤ (j - 72).natAbs :=
  c2_band_resolution_amended 72 eng5_attitude_bank 70 (by decide)

/-- The constructed opening key of variant 4 always contains an underscore
after the subject, so it can never equal the only list-typed global whose
name starts with `opening_`. -/
lemma v4_opening_key_ne (subject : Str) (year : Int) :
    ("opening_").data ++ bank_prefix subject year ≠ ("opening_phrases").data := by
  intro h
  have hsplit : ("opening_phrases").data = ("opening_").data ++ ("phrases").data := by decide
  rw [hsplit] at h
  have h2 : bank_prefix subject year = ("phrases").data := List.append_cancel_left h
  have h3 : '_' ∈ bank_prefix subject year := by
    unfold bank_prefix
    exact List.mem_append_right _ (List.mem_cons_self _ _)
  rw [h2] at h3
  exact absurd h3 (by decide)

/-- C5 counterexample: a request for an unregistered (subject, year) pair does
not fail with any error: variant 4 catches the `KeyError` of its constructed
global-name lookup and returns the empty string, a normal result. -/
theorem c5_bank_not_found_counterexample :
    generate_comment_v4 (("French").data) 9 (("Alice").data)
      (("they").data, ("their").data) 75 75 75 [] 0 0 = [] := by
  decide

/-- C5 amended: there is no `BankNotFoundError` anywhere in the code.  For
every request — the statement modules of the snapshot only bind unprefixed
bank names, so every constructed `opening_{subject}_{year}` lookup misses —
variant 4's `generate_comment` catches the `KeyError`, reports it, and
returns the empty string as an ordinary value. -/
theorem c5_bank_not_found_amended :
    ∀ (subject : Str) (year : Int) (name : Str) (pronouns : Str × Str)
      (att achieve target : Int) (attitude_target : Str) (oi ci : Nat),
      generate_comment_v4 subject year name pronouns att achieve target attitude_target oi ci =
        [] := by
  intro subject year name pronouns att achieve target attitude_target oi ci
  have hcb : ("opening_").data ++ bank_prefix subject year ≠ ("closer_bank").data := by
    intro h
    have h2 : ('o' :: (("pening_").data ++ bank_prefix subject year) : Str) =
        'c' :: ("loser_bank").data := h
    injection h2 with hh _
    exact absurd hh (by decide)
  have hnone : v4_list_globals (("opening_").data ++ bank_prefix subject year) = none := by
    unfold v4_list_globals
    rw [if_neg (v4_opening_key_ne subject year), if_neg hcb]
  simp only [generate_comment_v4, hnone]

/-- Concrete batch rows for C6: two well-formed Year-5 English rows around a
row whose Year field does not convert to an integer. -/
def c6Row1 : Row :=
  ⟨("Amy").data, ("Female").data, ("English").data, ("5").data,
   ("75").data, ("75").data, ("75").data⟩

def c6RowBad : Row :=
  ⟨("Bob").data, ("Male").data, ("English").data, ("seven").data,
   ("75").data, ("75").data, ("75").data⟩

def c6Row3 : Row :=
  ⟨("Cal").data, ("Male").data, ("English").data, ("5").data,
   ("80").data, ("80").data, ("80").data⟩

/-- C6 counterexample: in the final variant's Generate-All-Comments loop a
failing row aborts the whole batch.  On the batch [row1, badRow, row3] the
loop produces no results at all, although rows 1 and 3 each succeed on their
own — so it is not the case that every batch isolates per-row errors. -/
theorem c6_batch_abort_counterexample :
    (batchLoop_v6 [] [c6Row1, c6RowBad, c6Row3]).isOk = false ∧
    (processRow_v6 c6Row1).isOk = true ∧
    (processRow_v6 c6Row3).isOk = true := by
  refine ⟨by decide, by decide, by decide⟩

/-- C6 amended: only variant 1's batch loop has partial-failure semantics:
each row is processed inside its own try/except, so the recorded outcomes are
exactly the independent per-row outcomes, one per row, and a failing row
affects nothing else; the final variant's loop (see the counterexample) has no
per-row handler and is aborted by a failing row. -/
theorem c6_batch_isolation_amended : ∀ rows : List Row,
    batchLoop_v1 [] rows = rows.map processRow_v1 := by
  have key : ∀ (rows : List Row) (acc : List (Except Str BatchEntry)),
      batchLoop_v1 acc rows = acc ++ rows.map processRow_v1 := by
    intro rows
    induction rows with
    | nil => intro acc; simp [batchLoop_v1]
    | cons r rs ih =>
      intro acc
      rw [batchLoop_v1, ih, List.map_cons]
      simp
  intro rows
  simpa using key rows []

lemma subGo_id_of_no_occ (ci : Bool) (w repl : Str) :
    ∀ (fuel : Nat) (prevW : Bool) (cs : Str),
      occGo ci w fuel prevW cs = false → subGo ci w repl fuel prevW cs = cs := by
  intro fuel
  induction fuel with
  | zero => intro _ cs _; rfl
  | succ n ih =>
    intro prevW cs hocc
    cases cs with
    | nil => rfl
    | cons c cs' =>
      rw [occGo] at hocc
      rw [subGo]
      cases hm : subMatch ci w (c :: cs') with
      | none =>
        rw [hm] at hocc
        simp only
        rw [ih _ _ hocc]
      | some rest =>
        rw [hm] at hocc
        simp only
        rcases Bool.or_eq_false_iff.mp hocc with ⟨h1, h2⟩
        rw [h1]
        simp only [Bool.false_eq_true, if_false]
        rw [ih _ _ h2]

/-- C3: pronoun normalization rewrites only whole-word occurrences: on any
text with no whole-word occurrence of any of the eight substituted patterns
(so in particular on words like "the", "approached", "cohesive" that merely
contain a pronoun as a substring) it is the identity, character for
character; and "himself" is matched as one token, so for each of the three
pronoun sets it becomes exactly pronoun ++ "self", never a malformed tail of
the shorter "him" rule. -/
theorem c3_word_boundary_safety :
    (∀ (text pronoun possessive : Str),
      hasWordOcc true (("he").data) text = false →
      hasWordOcc false (("He").data) text = false →
      hasWordOcc true (("his").data) text = false →
      hasWordOcc false (("His").data) text = false →
      hasWordOcc true (("him").data) text = false →
      hasWordOcc false (("Him").data) text = false →
      hasWordOcc true (("himself").data) text = false →
      hasWordOcc true (("herself").data) text = false →
      fix_pronouns_in_text text pronoun possessive = text) ∧
    (∀ gender : Str,
      fix_pronouns_in_text (("himself").data) (get_pronouns gender).1 (get_pronouns gender).2 =
        (get_pronouns gender).1 ++ ("self").data) := by
  constructor
  · intro text p pp h1 h2 h3 h4 h5 h6 h7 h8
    unfold hasWordOcc at h1 h2 h3 h4 h5 h6 h7 h8
    cases text with
    | nil => rfl
    | cons a as =>
      unfold fix_pronouns_in_text
      simp only [List.isEmpty_cons, if_false, Bool.false_eq_true]
      unfold subWord
      rw [subGo_id_of_no_occ _ _ _ _ _ _ h1, subGo_id_of_no_occ _ _ _ _ _ _ h2,
        subGo_id_of_no_occ _ _ _ _ _ _ h3, subGo_id_of_no_occ _ _ _ _ _ _ h4,
        subGo_id_of_no_occ _ _ _ _ _ _ h5, subGo_id_of_no_occ _ _ _ _ _ _ h6,
        subGo_id_of_no_occ _ _ _ _ _ _ h7, subGo_id_of_no_occ _ _ _ _ _ _ h8]
  · intro gender
    rcases get_pronouns_cases gender with h | h | h <;> rw [h] <;> decide

/-- Witness for C3: the fragment "the approached cohesive" is untouched, and
"himself" for the female pronoun set becomes "she" ++ "self". -/
theorem c3_word_boundary_safety_witness :
    fix_pronouns_in_text (("the approached cohesive").data) (("she").data) (("her").data) =
      ("the approached cohesive").data ∧
    fix_pronouns_in_text (("himself").data) (get_pronouns (("Female").data)).1
        (get_pronouns (("Female").data)).2 =
      (get_pronouns (("Female").data)).1 ++ ("self").data :=
  ⟨c3_word_boundary_safety.1 _ _ _ (by decide) (by decide) (by decide) (by decide)
     (by decide) (by decide) (by decide) (by decide),
   c3_word_boundary_safety.2 _⟩

/-- C10: a name that sanitizes to the empty string is not a validation error:
`sanitize_input` always returns a possibly-empty string of at most 100
characters, a request whose name sanitizes to empty generates exactly the
comment of the empty name (the empty name is spliced into the opening
sentence), and generation proceeds to return a comment string for every name
input. -/
theorem c10_empty_name_proceeds :
    (∀ text : Str, (sanitize_input text).length ≤ 100) ∧
    (∀ (name : Str) (pronouns : Str × Str) (att achieve target : Int)
       (addendum : Str) (oi ci : Nat),
      sanitize_input name = [] →
      generate_comment_v1_sci sci7Banks name pronouns att achieve target addendum oi ci =
        generate_comment_v1_sci sci7Banks [] pronouns att achieve target addendum oi ci) ∧
    (∀ (name addendum : Str) (oi ci : Nat),
      ∃ s, generate_comment_v1_sci sci7Banks name (("they").data, ("their").data)
        75 75 75 addendum oi ci = Except.ok s) := by
  refine ⟨sanitize_input_length_le, ?_, ?_⟩
  · intro name pronouns att achieve target addendum oi ci h
    simp only [generate_comment_v1_sci, h]
    rfl
  · intro name addendum oi ci
    exact ⟨_, rfl⟩

/-- Witness for C10 at a name of only disallowed characters. -/
theorem c10_empty_name_proceeds_witness :
    (sanitize_input (("!!!***").data)).length ≤ 100 ∧
    generate_comment_v1_sci sci7Banks (("!!!***").data) (("they").data, ("their").data)
        75 75 75 [] 0 0 =
      generate_comment_v1_sci sci7Banks [] (("they").data, ("their").data) 75 75 75 [] 0 0 ∧
    ∃ s, generate_comment_v1_sci sci7Banks (("!!!***").data) (("they").data, ("their").data)
        75 75 75 [] 0 0 = Except.ok s :=
  ⟨c10_empty_name_proceeds.1 _,
   c10_empty_name_proceeds.2.1 _ _ _ _ _ _ _ _ (by decide),
   c10_empty_name_proceeds.2.2 _ _ _ _⟩

/-! Lemmas about the shared assembly/truncation tail, for C1. -/

lemma endsDot_ne_nil {l : Str} (h : endsDot l = true) : l ≠ [] := by
  intro hnil
  subst hnil
  simp [endsDot] at h

lemma ensureDot_endsDot (l : Str) : endsDot (ensureDot l) = true := by
  unfold ensureDot
  split
  · assumption
  · simp [endsDot, List.getLast?_concat]

lemma ensureDot_length_le (l : Str) : (ensureDot l).length ≤ l.length + 1 := by
  unfold ensureDot
  split
  · exact Nat.le_succ _
  · simp

lemma rstripSet_pre (bad : Str) (l : Str) : rstripSet bad l <+: l := by
  unfold rstripSet
  exact List.rdropWhile_prefix _ _

lemma rstripSet_length_le (bad : Str) (l : Str) : (rstripSet bad l).length ≤ l.length :=
  (rstripSet_pre bad l).length_le

lemma finalFix_ok (l : Str) (h1 : l.length ≤ TARGET_CHARS)
    (h2 : endsDot l = true ∨ l.length + 1 ≤ TARGET_CHARS) :
    (finalFix l).length ≤ TARGET_CHARS ∧ endsDot (finalFix l) = true := by
  unfold finalFix
  by_cases hd : endsDot l = true
  · rw [if_pos hd]
    exact ⟨h1, hd⟩
  · rw [if_neg hd]
    rcases h2 with h2 | h2
    · exact absurd h2 hd
    constructor
    · rw [List.length_append]
      have hr := rstripSet_length_le ([' ', ',', ';']) l
      simp only [List.length_cons, List.length_nil]
      omega
    · simp [endsDot, List.getLast?_concat]

lemma lastIdxOf_spec : ∀ (l : Str) (c : Char) (i : Nat),
    lastIdxOf l c = some i → i < l.length ∧ l.get? i = some c := by
  intro l
  induction l with
  | nil => intro c i h; cases h
  | cons a as ih =>
    intro c i h
    rw [lastIdxOf] at h
    cases hl : lastIdxOf as c with
    | some j =>
      rw [hl] at h
      injection h with h'
      subst h'
      obtain ⟨hj, hg⟩ := ih c j hl
      exact ⟨Nat.succ_lt_succ hj, by simpa using hg⟩
    | none =>
      rw [hl] at h
      by_cases hac : a = c
      · rw [if_pos hac] at h
        injection h with h'
        subst h'
        subst hac
        exact ⟨Nat.succ_pos _, rfl⟩
      · rw [if_neg hac] at h
        cases h

lemma lastIdxOf_none : ∀ (l : Str) (c : Char), lastIdxOf l c = none → c ∉ l := by
  intro l
  induction l with
  | nil => intro c _ hmem; simp at hmem
  | cons a as ih =>
    intro c h hmem
    rw [lastIdxOf] at h
    cases hl : lastIdxOf as c with
    | some j => rw [hl] at h; cases h
    | none =>
      rw [hl] at h
      by_cases hac : a = c
      · rw [if_pos hac] at h; cases h
      · rw [if_neg hac] at h
        rcases List.mem_cons.mp hmem with h2 | h2
        · exact hac h2.symm
        · exact ih c hl h2

lemma take_succ_getLast? (l : Str) (i : Nat) (c : Char) (h : l.get? i = some c) :
    (l.take (i + 1)).getLast? = some c := by
  rw [List.get?_eq_getElem?] at h
  have hi : i < l.length := by
    by_contra hge
    rw [List.getElem?_eq_none (Nat.le_of_not_lt hge)] at h
    cases h
  rw [List.getLast?_eq_getElem?]
  have hlen : (l.take (i + 1)).length = i + 1 := by
    simp [List.length_take]
    omega
  rw [hlen]
  simpa [List.getElem?_take_of_succ] using h

lemma truncate_window (l : Str) (hbig : ¬ l.length ≤ TARGET_CHARS)
    (hdot : '.' ∈ l.take TARGET_CHARS) :
    (truncate_comment l TARGET_CHARS).length ≤ TARGET_CHARS ∧
    (endsDot (truncate_comment l TARGET_CHARS) = true ∨
      (truncate_comment l TARGET_CHARS).length + 1 ≤ TARGET_CHARS) := by
  have htake : (l.take TARGET_CHARS).length ≤ TARGET_CHARS := by
    simp [List.length_take]
  have htlen : (rstripSet ([' ', ',', ';', '.']) (l.take TARGET_CHARS)).length ≤
      TARGET_CHARS := by
    have h1 := rstripSet_length_le ([' ', ',', ';', '.']) (l.take TARGET_CHARS)
    omega
  unfold truncate_comment
  rw [if_neg hbig]
  simp only
  split
  · next i hL =>
    obtain ⟨hi, hg⟩ := lastIdxOf_spec _ '.' i hL
    constructor
    · have h3 : ((rstripSet ([' ', ',', ';', '.']) (l.take TARGET_CHARS)).take (i + 1)).length ≤
          (rstripSet ([' ', ',', ';', '.']) (l.take TARGET_CHARS)).length := by
        simp [List.length_take]
      omega
    · left
      simp [endsDot, take_succ_getLast? _ i '.' hg]
  · next hL =>
    have hnot : '.' ∉ rstripSet ([' ', ',', ';', '.']) (l.take TARGET_CHARS) :=
      lastIdxOf_none _ '.' hL
    have hpre : rstripSet ([' ', ',', ';', '.']) (l.take TARGET_CHARS) <+: l.take TARGET_CHARS :=
      rstripSet_pre _ _
    have hne : rstripSet ([' ', ',', ';', '.']) (l.take TARGET_CHARS) ≠ l.take TARGET_CHARS := by
      intro he
      rw [he] at hnot
      exact hnot hdot
    have hlt : (rstripSet ([' ', ',', ';', '.']) (l.take TARGET_CHARS)).length <
        (l.take TARGET_CHARS).length := by
      rcases Nat.lt_or_ge (rstripSet ([' ', ',', ';', '.']) (l.take TARGET_CHARS)).length
          (l.take TARGET_CHARS).length with hcase | hcase
      · exact hcase
      · exact absurd (hpre.eq_of_length (Nat.le_antisymm hpre.length_le hcase)) hne
    have htk : (l.take TARGET_CHARS).length = TARGET_CHARS := by
      simp [List.length_take]
      omega
    exact ⟨htlen, Or.inr (by omega)⟩

lemma dot_in_window (a r : Str) (ha : endsDot a = true) (hlen : a.length ≤ TARGET_CHARS)
    (hbig : ¬ (ensureDot (pyStrip (a ++ r))).length ≤ TARGET_CHARS) :
    '.' ∈ (ensureDot (pyStrip (a ++ r))).take TARGET_CHARS := by
  replace ha : a.getLast? = some '.' := by simpa [endsDot] using ha
  have ha2ne : a.dropWhile pyIsSpace ≠ [] := by
    intro h
    have hall := (List.dropWhile_eq_nil_iff).mp h '.' (List.mem_of_getLast?_eq_some ha)
    simp [pyIsSpace] at hall
  have ha2suff : a.dropWhile pyIsSpace <:+ a := List.dropWhile_suffix _
  have ha2last : (a.dropWhile pyIsSpace).getLast? = some '.' := by
    obtain ⟨pre, hpre⟩ := ha2suff
    rw [← hpre] at ha
    rwa [List.getLast?_append_of_ne_nil _ ha2ne] at ha
  have ha2len : (a.dropWhile pyIsSpace).length ≤ TARGET_CHARS :=
    le_trans ha2suff.length_le hlen
  have hdw : (a ++ r).dropWhile pyIsSpace = a.dropWhile pyIsSpace ++ r := by
    rw [List.dropWhile_append]
    have hie : (a.dropWhile pyIsSpace).isEmpty = false := by
      cases hcase : a.dropWhile pyIsSpace
      · exact absurd hcase ha2ne
      · rfl
    rw [hie]
    simp
  have hc1pre : pyStrip (a ++ r) <+: a.dropWhile pyIsSpace ++ r := by
    rw [pyStrip, hdw]
    exact List.rdropWhile_prefix _ _
  have hc1len : (a.dropWhile pyIsSpace).length ≤ (pyStrip (a ++ r)).length := by
    have h2 := ensureDot_length_le (pyStrip (a ++ r))
    omega
  have ha2pre : a.dropWhile pyIsSpace <+: pyStrip (a ++ r) :=
    List.prefix_of_prefix_length_le (List.prefix_append _ _) hc1pre hc1len
  have ha2pre2 : a.dropWhile pyIsSpace <+: ensureDot (pyStrip (a ++ r)) := by
    unfold ensureDot
    split
    · exact ha2pre
    · exact ha2pre.trans (List.prefix_append _ _)
  obtain ⟨r2, hr2⟩ := ha2pre2
  rw [← hr2, List.take_append_eq_append_take]
  rw [List.take_of_length_le ha2len]
  exact List.mem_append_left _ (List.mem_of_getLast?_eq_some ha2last)

lemma joinNonEmpty_cons_of_ne (a : Str) (rest : List Str) (h : a ≠ []) :
    ∃ r, joinNonEmpty (a :: rest) = a ++ r := by
  unfold joinNonEmpty
  have hf : (a :: rest).filter (fun c => !c.isEmpty) =
      a :: rest.filter (fun c => !c.isEmpty) := by
    rw [List.filter_cons]
    have hie : (!a.isEmpty) = true := by
      cases a
      · exact absurd rfl h
      · rfl
    rw [hie]
    simp
  rw [hf]
  cases hrest : rest.filter (fun c => !c.isEmpty) with
  | nil => exact ⟨[], by simp [joinSp]⟩
  | cons y ys => exact ⟨' ' :: joinSp (y :: ys), rfl⟩

lemma v1Tail_ok (a : Str) (rest : List Str) (ha : endsDot a = true)
    (hlen : a.length ≤ TARGET_CHARS) :
    (v1Tail (a :: rest)).length ≤ TARGET_CHARS ∧ endsDot (v1Tail (a :: rest)) = true := by
  obtain ⟨r, hr⟩ := joinNonEmpty_cons_of_ne a rest (endsDot_ne_nil ha)
  unfold v1Tail
  rw [hr]
  have hc2dot : endsDot (ensureDot (pyStrip (a ++ r))) = true := ensureDot_endsDot _
  by_cases hbig : (ensureDot (pyStrip (a ++ r))).length ≤ TARGET_CHARS
  · have ht : truncate_comment (ensureDot (pyStrip (a ++ r))) TARGET_CHARS =
        ensureDot (pyStrip (a ++ r)) := by
      unfold truncate_comment
      rw [if_pos hbig]
    rw [ht]
    exact finalFix_ok _ hbig (Or.inl hc2dot)
  · have hdot := dot_in_window a r ha hlen hbig
    obtain ⟨h1, h2⟩ := truncate_window _ hbig hdot
    exact finalFix_ok _ h1 h2

lemma dictFind_bound (bank : Bank) (k : Int) (raw : Str) (gender : Str) (n : Nat)
    (hA : dictFind bank k = some raw)
    (hB : ∀ kv ∈ bank, ∀ pr ∈ pronounOptions,
      (fix_pronouns_in_text kv.2 pr.1 pr.2).length ≤ n) :
    (fix_pronouns_in_text raw (get_pronouns gender).1 (get_pronouns gender).2).length ≤ n := by
  unfold dictFind at hA
  cases hf : bank.find? (fun kv => kv.1 == k) with
  | none => rw [hf] at hA; cases hA
  | some kv =>
    rw [hf] at hA
    injection hA with hA
    subst hA
    exact hB kv (List.mem_of_find?_eq_some hf) _ (get_pronouns_mem_options gender)

lemma openings_bound (pool : List Str) (oi : Nat) (n : Nat)
    (hOpen : ∀ o ∈ pool, o.length ≤ n) : ((pool.get? oi).getD []).length ≤ n := by
  cases hgo : pool.get? oi with
  | none => simp
  | some o => simpa using hOpen o (List.get?_mem hgo)

/-- C1: every comment the generator returns has length at most TARGET_CHARS
(499) and ends with a period.  Stated for variant 1's science-shaped and
English-shaped composers over any statement set whose opening phrases are at
most 60 characters and whose pronoun-fixed attitude fragments are at most 330
characters (both hold for the repository's bank data, see the witness); the
name, gender, bands, random draws and optional addendum are arbitrary. -/
theorem c1_length_contract :
    (∀ (B : ScienceBanks) (name gender addendum : Str) (att achieve target : Int)
       (oi ci : Nat) (s : Str),
      (∀ o ∈ B.openings, o.length ≤ 60) →
      (∀ kv ∈ B.attitude, ∀ pr ∈ pronounOptions,
        (fix_pronouns_in_text kv.2 pr.1 pr.2).length ≤ 330) →
      generate_comment_v1_sci B name (get_pronouns gender) att achieve target addendum oi ci =
        Except.ok s →
      s.length ≤ TARGET_CHARS ∧ endsDot s = true) ∧
    (∀ (B : EnglishBanks) (name gender addendum : Str) (att achieve target : Int)
       (oi ci : Nat) (s : Str),
      (∀ o ∈ B.openings, o.length ≤ 60) →
      (∀ kv ∈ B.attitude, ∀ pr ∈ pronounOptions,
        (fix_pronouns_in_text kv.2 pr.1 pr.2).length ≤ 330) →
      generate_comment_v1_eng B name (get_pronouns gender) att achieve target addendum oi ci =
        Except.ok s →
      s.length ≤ TARGET_CHARS ∧ endsDot s = true) := by
  constructor
  · intro B name gender addendum att achieve target oi ci s hOpen hAtt hok
    cases hA : dictFind B.attitude att with
    | none => simp [generate_comment_v1_sci, hA] at hok
    | some attRaw =>
    cases hS : dictFind B.science achieve with
    | none => simp [generate_comment_v1_sci, hA, hS] at hok
    | some sciRaw =>
    cases hC : fix_pronouns_in_text sciRaw (get_pronouns gender).1 (get_pronouns gender).2 with
    | nil => simp [generate_comment_v1_sci, hA, hS, hC] at hok
    | cons c0 rest0 =>
    cases hT : dictFind B.target target with
    | none => simp [generate_comment_v1_sci, hA, hS, hC, hT] at hok
    | some tgtRaw =>
    simp only [generate_comment_v1_sci, hA, hS, hC, hT, Except.ok.injEq] at hok
    subst hok
    apply v1Tail_ok
    · exact ensureDot_endsDot _
    · refine le_trans (ensureDot_length_le _) ?_
      have hop := openings_bound B.openings oi 60 hOpen
      have hnm := sanitize_input_length_le name
      have hat := dictFind_bound B.attitude att attRaw gender 330 hA hAtt
      simp only [List.length_append, List.length_cons]
      unfold TARGET_CHARS
      omega
  · intro B name gender addendum att achieve target oi ci s hOpen hAtt hok
    cases hA : dictFind B.attitude att with
    | none => simp [generate_comment_v1_eng, hA] at hok
    | some attRaw =>
    cases hR : dictFind B.reading achieve with
    | none => simp [generate_comment_v1_eng, hA, hR] at hok
    | some readRaw =>
    cases hC : fix_pronouns_in_text readRaw (get_pronouns gender).1 (get_pronouns gender).2 with
    | nil => simp [generate_comment_v1_eng, hA, hR, hC] at hok
    | cons rc rrest =>
    cases hW : dictFind B.writing achieve with
    | none => simp [generate_comment_v1_eng, hA, hR, hC, hW] at hok
    | some writRaw =>
    cases hC2 : fix_pronouns_in_text writRaw (get_pronouns gender).1 (get_pronouns gender).2 with
    | nil => simp [generate_comment_v1_eng, hA, hR, hC, hW, hC2] at hok
    | cons wc wrest =>
    cases hRT : dictFind B.readingTarget target with
    | none => simp [generate_comment_v1_eng, hA, hR, hC, hW, hC2, hRT] at hok
    | some rtRaw =>
    cases hWT : dictFind B.writingTarget target with
    | none => simp [generate_comment_v1_eng, hA, hR, hC, hW, hC2, hRT, hWT] at hok
    | some wtRaw =>
    simp only [generate_comment_v1_eng, hA, hR, hC, hW, hC2, hRT, hWT,
      Except.ok.injEq] at hok
    subst hok
    apply v1Tail_ok
    · exact ensureDot_endsDot _
    · refine le_trans (ensureDot_length_le _) ?_
      have hop := openings_bound B.openings oi 60 hOpen
      have hnm := sanitize_input_length_le name
      have hat := dictFind_bound B.attitude att attRaw gender 330 hA hAtt
      simp only [List.length_append, List.length_cons]
      unfold TARGET_CHARS
      omega

/-- Witness for C1: both shapes at the repository's statement sets (the
year-7 science banks and the Year-5 English banks), on a concrete request. -/
theorem c1_length_contract_witness :
    (∃ s, generate_comment_v1_sci sci7Banks (("Aisha").data)
        (get_pronouns (("Female").data)) 75 75 75 [] 0 0 = Except.ok s ∧
      s.length ≤ TARGET_CHARS ∧ endsDot s = true) ∧
    (∃ s, generate_comment_v1_eng eng5Banks (("Omar").data)
        (get_pronouns (("Male").data)) 75 75 75 [] 0 0 = Except.ok s ∧
      s.length ≤ TARGET_CHARS ∧ endsDot s = true) := by
  constructor
  · obtain ⟨h1, h2⟩ := c1_length_contract.1 sci7Banks (("Aisha").data) (("Female").data) []
      75 75 75 0 0 _ (by decide) (by decide) rfl
    exact ⟨_, rfl, h1, h2⟩
  · obtain ⟨h1, h2⟩ := c1_length_contract.2 eng5Banks (("Omar").data) (("Male").data) []
      75 75 75 0 0 _ (by decide) (by decide) rfl
    exact ⟨_, rfl, h1, h2⟩

end Report
